import Mathlib

/-!
Shallow embedding of the eprint-guessr front-end controller
(`src/static/script.js`) and proofs about its scoring-feedback engine,
slider transform, round loader and session state machine.

The script file concatenates two variants of the controller:
a numeric-input variant (lines 1-252) and a slider variant (lines 254-604).
Both share the loader and feedback logic; the slider variant adds the
slider-to-citation transform, server-side scoring and the session tally.
JavaScript numbers are modelled as `ℤ`/`ℚ`/`ℝ` (all arithmetic in range is
exact); `Math.round` and `toFixed(0)` on non-negative values both round
half up, matching Mathlib's `round = ⌊x + 1/2⌋`.
-/

/-- Slider-to-citation transform (script.js lines 269-272):
`min(round((e^(s/20) - 1) * 10), 10000)`. -/
noncomputable def sliderToCitations (sliderValue : ℤ) : ℤ :=
  min (round ((Real.exp ((sliderValue : ℝ) / 20) - 1) * 10)) 10000

/-- Designed approximate inverse of the slider transform
(script.js lines 274-277): `round(20 * ln((c/10) + 1))`. -/
noncomputable def citationsToSlider (citations : ℤ) : ℤ :=
  round (20 * Real.log ((citations : ℝ) / 10 + 1))

/-- Helper for `toLocaleString`: groups a reversed digit list in threes,
comma-separated. -/
def localeGroup : List Char → List Char
  | a :: b :: c :: d :: rest => a :: b :: c :: ',' :: localeGroup (d :: rest)
  | l => l

/-- Model of JavaScript `Number.prototype.toLocaleString` (en-US-style
thousands grouping), used by the citation feedback for large differences. -/
def toLocaleString (n : ℤ) : String :=
  ⟨(localeGroup (toString n).data.reverse).reverse⟩

/-- Model of JavaScript `Number.prototype.toFixed(0)` on the non-negative
percentage values used by the citation feedback: round half up to an
integer and render it. -/
def toFixed0 (q : ℚ) : String :=
  toString (round q)

/-- Year feedback (script.js lines 146-156): signed difference
`diff = guess - actual`, branches on `diff === 0`, `absDiff === 1`,
`absDiff <= 3`, `absDiff <= 5`, `absDiff <= 10`, else. -/
def getYearFeedback (guess actual : ℤ) : String :=
  if guess - actual = 0 then "🎯 Perfect! Spot on!"
  else if |guess - actual| = 1 then
    if guess - actual > 0 then "📅 1 year too recent" else "📅 1 year too old"
  else if |guess - actual| ≤ 3 then
    if guess - actual > 0 then "📅 " ++ toString |guess - actual| ++ " years too recent"
    else "📅 " ++ toString |guess - actual| ++ " years too old"
  else if |guess - actual| ≤ 5 then
    if guess - actual > 0 then "📅 " ++ toString |guess - actual| ++ " years too recent (getting warm)"
    else "📅 " ++ toString |guess - actual| ++ " years too old (close!)"
  else if |guess - actual| ≤ 10 then
    if guess - actual > 0 then "📅 " ++ toString |guess - actual| ++ " years too recent"
    else "📅 " ++ toString |guess - actual| ++ " years too old"
  else
    if guess - actual > 0 then "📅 Way too recent (" ++ toString |guess - actual| ++ " years off)"
    else "📅 Way too old (" ++ toString |guess - actual| ++ " years off)"

/-- Percentage difference used by the citation feedback
(script.js line 161): `actual === 0 ? 100 : (absDiff / actual) * 100`. -/
def citPercentDiff (guess actual : ℤ) : ℚ :=
  if actual = 0 then 100 else ((|guess - actual| : ℚ) / (actual : ℚ)) * 100

/-- Citation feedback (script.js lines 158-175): exact match, then
absolute-difference bands when `actual < 50`, percentage bands otherwise. -/
def getCitationFeedback (guess actual : ℤ) : String :=
  if guess - actual = 0 then "🎯 Exactly right!"
  else if actual < 50 then
    if |guess - actual| ≤ 5 then
      if guess - actual > 0 then "📚 " ++ toString |guess - actual| ++ " citations too high (very close!)"
      else "📚 " ++ toString |guess - actual| ++ " citations too low (very close!)"
    else if |guess - actual| ≤ 20 then
      if guess - actual > 0 then "📚 " ++ toString |guess - actual| ++ " citations too high"
      else "📚 " ++ toString |guess - actual| ++ " citations too low"
    else
      if guess - actual > 0 then "📚 Overestimated by " ++ toString |guess - actual| ++ " citations"
      else "📚 Underestimated by " ++ toString |guess - actual| ++ " citations"
  else
    if citPercentDiff guess actual ≤ 10 then
      if guess - actual > 0 then
        "📚 Slightly overestimated (" ++ toString |guess - actual| ++ " citations, " ++ toFixed0 (citPercentDiff guess actual) ++ "% off)"
      else
        "📚 Slightly underestimated (" ++ toString |guess - actual| ++ " citations, " ++ toFixed0 (citPercentDiff guess actual) ++ "% off)"
    else if citPercentDiff guess actual ≤ 25 then
      if guess - actual > 0 then "📚 Overestimated by " ++ toFixed0 (citPercentDiff guess actual) ++ "%"
      else "📚 Underestimated by " ++ toFixed0 (citPercentDiff guess actual) ++ "%"
    else if citPercentDiff guess actual ≤ 50 then
      if guess - actual > 0 then "📚 Significantly overestimated (" ++ toFixed0 (citPercentDiff guess actual) ++ "% too high)"
      else "📚 Significantly underestimated (" ++ toFixed0 (citPercentDiff guess actual) ++ "% too low)"
    else
      if guess - actual > 0 then "📚 Way overestimated (" ++ toLocaleString |guess - actual| ++ " citations off)"
      else "📚 Way underestimated (" ++ toLocaleString |guess - actual| ++ " citations off)"

/-- Spec-side wording for a year guessed too recent, organised by the
documented error bands {1, 2-3, 4-5, 6-10, more than 10}. -/
def yearRecentWording (n : ℤ) : String :=
  if n = 1 then "📅 1 year too recent"
  else if 2 ≤ n ∧ n ≤ 3 then "📅 " ++ toString n ++ " years too recent"
  else if 4 ≤ n ∧ n ≤ 5 then "📅 " ++ toString n ++ " years too recent (getting warm)"
  else if 6 ≤ n ∧ n ≤ 10 then "📅 " ++ toString n ++ " years too recent"
  else "📅 Way too recent (" ++ toString n ++ " years off)"

/-- Spec-side wording for a year guessed too old, organised by the
documented error bands {1, 2-3, 4-5, 6-10, more than 10}. -/
def yearOldWording (n : ℤ) : String :=
  if n = 1 then "📅 1 year too old"
  else if 2 ≤ n ∧ n ≤ 3 then "📅 " ++ toString n ++ " years too old"
  else if 4 ≤ n ∧ n ≤ 5 then "📅 " ++ toString n ++ " years too old (close!)"
  else if 6 ≤ n ∧ n ≤ 10 then "📅 " ++ toString n ++ " years too old"
  else "📅 Way too old (" ++ toString n ++ " years off)"

/-- Spec-side presentation of the year feedback: perfect on zero difference,
otherwise direction-aware wording applied to the absolute difference. -/
def yearFeedbackSpec (d : ℤ) : String :=
  if d = 0 then "🎯 Perfect! Spot on!"
  else if d > 0 then yearRecentWording |d| else yearOldWording |d|

/-- Band index of a signed year difference, following the documented
partition {0, 1, 2-3, 4-5, 6-10, more than 10}. -/
def yearBand (d : ℤ) : ℕ :=
  if |d| = 0 then 0
  else if |d| = 1 then 1
  else if 2 ≤ |d| ∧ |d| ≤ 3 then 2
  else if 4 ≤ |d| ∧ |d| ≤ 5 then 3
  else if 6 ≤ |d| ∧ |d| ≤ 10 then 4
  else 5

/-- Band classifier reading only the produced message text: the perfect
message starts with the dart emoji; otherwise the character after the
calendar emoji and the space determines the band (a leading `W` marks the
"Way too ..." band, and the digits `1`..`10` mark the numeral bands, with
`10` recognised by its second digit). -/
def yearBandOfMessage (m : String) : ℕ :=
  if m.data.get? 0 = some '🎯' then 0
  else if m.data.get? 2 = some 'W' then 5
  else if m.data.get? 2 = some '1' then
    (if m.data.get? 3 = some '0' then 4 else 1)
  else if m.data.get? 2 = some '2' ∨ m.data.get? 2 = some '3' then 2
  else if m.data.get? 2 = some '4' ∨ m.data.get? 2 = some '5' then 3
  else 4

/-- Spec-side citation wording for an overestimate against a small
(`actual < 50`) citation count: absolute bands at most 5, at most 20,
otherwise. -/
def citAbsoluteOverWording (n : ℤ) : String :=
  if n ≤ 5 then "📚 " ++ toString n ++ " citations too high (very close!)"
  else if n ≤ 20 then "📚 " ++ toString n ++ " citations too high"
  else "📚 Overestimated by " ++ toString n ++ " citations"

/-- Spec-side citation wording for an underestimate against a small
(`actual < 50`) citation count. -/
def citAbsoluteUnderWording (n : ℤ) : String :=
  if n ≤ 5 then "📚 " ++ toString n ++ " citations too low (very close!)"
  else if n ≤ 20 then "📚 " ++ toString n ++ " citations too low"
  else "📚 Underestimated by " ++ toString n ++ " citations"

/-- Spec-side citation wording for an overestimate against a large
(`actual ≥ 50`) citation count: percentage bands at most 10, 25, 50,
otherwise. -/
def citPercentOverWording (n : ℤ) (pct : ℚ) : String :=
  if pct ≤ 10 then "📚 Slightly overestimated (" ++ toString n ++ " citations, " ++ toFixed0 pct ++ "% off)"
  else if pct ≤ 25 then "📚 Overestimated by " ++ toFixed0 pct ++ "%"
  else if pct ≤ 50 then "📚 Significantly overestimated (" ++ toFixed0 pct ++ "% too high)"
  else "📚 Way overestimated (" ++ toLocaleString n ++ " citations off)"

/-- Spec-side citation wording for an underestimate against a large
(`actual ≥ 50`) citation count. -/
def citPercentUnderWording (n : ℤ) (pct : ℚ) : String :=
  if pct ≤ 10 then "📚 Slightly underestimated (" ++ toString n ++ " citations, " ++ toFixed0 pct ++ "% off)"
  else if pct ≤ 25 then "📚 Underestimated by " ++ toFixed0 pct ++ "%"
  else if pct ≤ 50 then "📚 Significantly underestimated (" ++ toFixed0 pct ++ "% too low)"
  else "📚 Way underestimated (" ++ toLocaleString n ++ " citations off)"

/-- Spec-side presentation of the citation feedback: exact on zero
difference, absolute-difference bands below `actual = 50`, percentage
bands at or above it, with the direction split outermost so that the
overestimate wording is chosen exactly when the difference is positive. -/
def citationFeedbackSpec (guess actual : ℤ) : String :=
  if guess - actual = 0 then "🎯 Exactly right!"
  else if actual < 50 then
    if guess - actual > 0 then citAbsoluteOverWording |guess - actual|
    else citAbsoluteUnderWording |guess - actual|
  else
    if guess - actual > 0 then citPercentOverWording |guess - actual| (citPercentDiff guess actual)
    else citPercentUnderWording |guess - actual| (citPercentDiff guess actual)

/-- Round data exposed by a successful `/api/random-paper` payload. -/
structure Paper where
  id : ℤ
  title : String
  year : ℤ
  cites : ℤ
  image : String
deriving Repr, DecidableEq

/-- Outcome of one `/api/random-paper` attempt, as observed by the loader
loop: a rejected fetch (network unreachable), a non-ok HTTP response
(thrown at line 399), a timeout abort (the 30000 ms `AbortController`),
a well-formed payload with `success: false`, or a success payload. -/
inductive FetchResult where
  | transportError : FetchResult
  | httpErrororStatus : ℕ → FetchResult
  | timeoutAbort : FetchResult
  | failurePayload : FetchResult
  | successPayload : Paper → FetchResult
deriving Repr, DecidableEq

/-- Whether a fetch attempt produced a `success: true` payload. -/
def FetchResult.isSuccessPayload : FetchResult → Bool
  | .successPayload _ => true
  | _ => false

/-- Retry bound of the loader loop (script.js line 383: `maxRetries = 3`). -/
def maxRetries : ℕ := 3

/-- Fixed backoff before each retry, in milliseconds (script.js line 431:
`setTimeout(resolve, 1000)`). -/
def backoffMs : ℕ := 1000

/-- Per-attempt request timeout, in milliseconds (script.js line 390). -/
def requestTimeoutMs : ℕ := 30000

/-- Observable outcome of one run of the loader loop: the paper on success
(`Ready`) or `none` (`Failed`), the number of requests issued, the backoff
waits performed (in milliseconds, in order), and whether a user-visible
error was raised. -/
structure LoadOutcome where
  paper : Option Paper
  requests : ℕ
  waits : List ℕ
  alerted : Bool
deriving Repr, DecidableEq

/-- The retry loop of `loadNewPaper` (script.js lines 385-449). `retry` is
the loop counter; `fuel` is the number of iterations the `for` loop still
permits (`maxRetries - retry`), driving termination. Each iteration issues
one request; a success payload returns it; any other outcome retries after
a fixed backoff while `retry < maxRetries - 1`, and otherwise alerts and
gives up. -/
def loadLoop (att : ℕ → FetchResult) : ℕ → ℕ → List ℕ → ℕ → LoadOutcome
  | _, requests, waits, 0 => ⟨none, requests, waits, false⟩
  | retry, requests, waits, fuel + 1 =>
    match att retry with
    | .successPayload p => ⟨some p, requests + 1, waits, false⟩
    | _ =>
      if retry < maxRetries - 1 then
        loadLoop att (retry + 1) (requests + 1) (waits ++ [backoffMs]) fuel
      else
        ⟨none, requests + 1, waits, true⟩

/-- One full run of the loader loop from attempt 0, as performed by
`loadNewPaper` once it is past the `isLoading` guard. -/
def loadNewPaperRun (att : ℕ → FetchResult) : LoadOutcome :=
  loadLoop att 0 0 [] maxRetries

/-- One recorded round score (script.js lines 524-530). -/
structure RoundScore where
  round : ℕ
  yearScore : ℤ
  citeScore : ℤ
  totalScore : ℤ
  paper : String
deriving Repr, DecidableEq

/-- Session state of the slider variant (script.js lines 280-285). -/
structure GameState where
  currentPaper : Option Paper
  roundNumber : ℕ
  roundsPlayed : ℕ
  totalScore : ℤ
  roundScores : List RoundScore
  isLoading : Bool
deriving Repr, DecidableEq

/-- State established on entry to `loadNewPaper` once past the guard
(script.js lines 365-381): the busy flag is raised and the current paper
is discarded. -/
def loadStartState (st : GameState) : GameState :=
  { st with isLoading := true, currentPaper := none }

/-- The `loadNewPaper` operation (script.js lines 359-452): a no-op while
already loading; otherwise raises the busy flag, discards the current
round, runs the retry loop, installs the fetched paper (if any) and clears
the busy flag on every exit path. -/
def loadNewPaper (st : GameState) (att : ℕ → FetchResult) : GameState × LoadOutcome :=
  if st.isLoading then (st, ⟨none, 0, [], false⟩)
  else
    ({ loadStartState st with
        currentPaper := (loadNewPaperRun att).paper,
        isLoading := false },
     loadNewPaperRun att)

/-- Result of the `/api/submit-guess` POST as observed by `submitGuess`:
a transport failure, a non-ok response (thrown at line 514), or a score
payload carrying `year_score`, `cite_score` and `total_score`. -/
inductive ServerResult where
  | transportError : ServerResult
  | httpErrorStatus : ℕ → ServerResult
  | ok : ℤ → ℤ → ℤ → ServerResult
deriving Repr, DecidableEq

/-- Whether the score request produced a usable score payload. -/
def ServerResult.isOk : ServerResult → Bool
  | .ok _ _ _ => true
  | _ => false

/-- Observable side effects of one `submitGuess` call: whether the POST was
issued, whether an error alert was raised, and whether the submit control
is enabled when the call finishes (the `finally` block always re-enables
it; the no-paper early return never disables it). -/
structure SubmitReport where
  networkCalled : Bool
  alerted : Bool
  submitEnabled : Bool
deriving Repr, DecidableEq

/-- The slider-variant `submitGuess` (script.js lines 485-568), as a state
transition on the session tally. The derived citation guess and the
feedback strings only affect the request body and the results display
(they are modelled separately by `sliderToCitations`, `getYearFeedback`
and `getCitationFeedback`); the session state is mutated only after a
usable score payload arrives: `totalScore += total_score`, the round score
is appended to the history, and `roundsPlayed` is incremented. -/
def submitGuess (st : GameState) (server : ServerResult) : GameState × SubmitReport :=
  match st.currentPaper with
  | none => (st, ⟨false, true, true⟩)
  | some paper =>
    match server with
    | .ok yearScore citeScore roundScore =>
        ({ st with
            totalScore := st.totalScore + roundScore,
            roundScores := st.roundScores ++
              [⟨st.roundNumber, yearScore, citeScore, roundScore, paper.title⟩],
            roundsPlayed := st.roundsPlayed + 1 },
         ⟨true, false, true⟩)
    | _ => (st, ⟨true, true, true⟩)

/-- The `nextRound` operation (script.js lines 570-574). -/
def nextRound (st : GameState) (att : ℕ → FetchResult) : GameState × LoadOutcome :=
  loadNewPaper { st with roundNumber := st.roundNumber + 1 } att

/-- The `resetGame` operation (script.js lines 576-584): when the user
confirms, zero the tally, clear the score history, restart the round
counter and immediately call `loadNewPaper`. -/
def resetGame (st : GameState) (confirmed : Bool) (att : ℕ → FetchResult) : GameState × LoadOutcome :=
  if confirmed then
    loadNewPaper
      { st with roundNumber := 1, roundsPlayed := 0, totalScore := 0, roundScores := [] }
      att
  else (st, ⟨none, 0, [], false⟩)

/-- A user- or timer-driven operation on the slider-variant session. -/
inductive GameOp where
  | load : (ℕ → FetchResult) → GameOp
  | next : (ℕ → FetchResult) → GameOp
  | submit : ServerResult → GameOp
  | reset : Bool → (ℕ → FetchResult) → GameOp

/-- Whether the operation is the explicit reset action. -/
def GameOp.isReset : GameOp → Bool
  | .reset _ _ => true
  | _ => false

/-- The documented score contract for a submit operation: the server
reports a non-negative round total (each axis score lies in [0, 5000]).
Non-submit operations carry no score. -/
def opScoreNonneg : GameOp → Prop
  | .submit (.ok _ _ total) => 0 ≤ total
  | _ => True

/-- State transition of one session operation. -/
def applyOp (st : GameState) : GameOp → GameState
  | .load att => (loadNewPaper st att).1
  | .next att => (nextRound st att).1
  | .submit server => (submitGuess st server).1
  | .reset confirmed att => (resetGame st confirmed att).1

/-- Session state of the numeric-input variant (script.js lines 16-19). -/
structure GameStateV1 where
  currentPaper : Option Paper
  roundNumber : ℕ
  roundsPlayed : ℕ
  isLoading : Bool
deriving Repr, DecidableEq

/-- Outcome of one numeric-variant `submitGuess` call: the alert raised, or
the results view on acceptance. -/
inductive SubmitV1Outcome where
  | noPaperAlert : SubmitV1Outcome
  | invalidYearAlert : SubmitV1Outcome
  | invalidCiteAlert : SubmitV1Outcome
  | resultsShown : SubmitV1Outcome
deriving Repr, DecidableEq

/-- The numeric-input variant `submitGuess` (script.js lines 177-227).
Inputs are the `parseInt` results of the two fields (`none` models `NaN`).
Validation happens before anything else: a year outside [2000, 2024] or a
negative or non-numeric citation count alerts and returns, leaving the
state untouched. The variant performs no network call (the final `Bool`);
an accepted guess renders feedback locally and increments `roundsPlayed`. -/
def submitGuessV1 (st : GameStateV1) (yearInput citeInput : Option ℤ) :
    GameStateV1 × SubmitV1Outcome × Bool :=
  match st.currentPaper with
  | none => (st, .noPaperAlert, false)
  | some _ =>
    match yearInput with
    | none => (st, .invalidYearAlert, false)
    | some y =>
      if y < 2000 ∨ y > 2024 then (st, .invalidYearAlert, false)
      else
        match citeInput with
        | none => (st, .invalidCiteAlert, false)
        | some c =>
          if c < 0 then (st, .invalidCiteAlert, false)
          else ({ st with roundsPlayed := st.roundsPlayed + 1 }, .resultsShown, false)

/-- Year input accepted by the numeric-variant validation. -/
def validYearInputV1 : Option ℤ → Bool
  | none => false
  | some y => decide (2000 ≤ y) && decide (y ≤ 2024)

/-- Citation input accepted by the numeric-variant validation. -/
def validCiteInputV1 : Option ℤ → Bool
  | none => false
  | some c => decide (0 ≤ c)

/-- Lower numeric bound on `e^5`, from the decimal bounds on `e`. -/
lemma exp_five_lb : (148.35 : ℝ) ≤ Real.exp 5 := by
  have h1 : (2.7182818283 : ℝ) < Real.exp 1 := Real.exp_one_gt_d9
  have h5 : Real.exp 5 = Real.exp 1 ^ 5 := by
    rw [← Real.exp_nat_mul]; norm_num
  nlinarith [pow_le_pow_left₀ (by norm_num : (0:ℝ) ≤ 2.7182818283) (le_of_lt h1) 5]

/-- Upper numeric bound on `e^5`, from the decimal bounds on `e`. -/
lemma exp_five_ub : Real.exp 5 < 148.45 := by
  have h1 : Real.exp 1 < (2.7182818286 : ℝ) := Real.exp_one_lt_d9
  have h5 : Real.exp 5 = Real.exp 1 ^ 5 := by
    rw [← Real.exp_nat_mul]; norm_num
  nlinarith [pow_le_pow_left₀ (le_of_lt (Real.exp_pos 1)) (le_of_lt h1) 5, Real.exp_pos 1]

/-- Value of the slider transform at the top slider position 100. -/
lemma sliderToCitations_at_100 : sliderToCitations 100 = 1474 := by
  unfold sliderToCitations
  have h20 : ((100:ℤ) : ℝ) / 20 = 5 := by norm_num
  rw [h20]
  have hr : round ((Real.exp 5 - 1) * 10) = 1474 := by
    rw [round_eq, Int.floor_eq_iff]
    constructor
    · push_cast
      nlinarith [exp_five_lb]
    · push_cast
      nlinarith [exp_five_ub]
  rw [hr]
  decide

/-- Claim C1, counterexample: at slider position 100 the transform yields
1474, not the cap 10000, so `citations(100) == 10000` fails on the code. -/
theorem slider_hundred_ne_cap : sliderToCitations 100 ≠ 10000 := by
  rw [sliderToCitations_at_100]
  decide

/-- Claim C1, amended: the transform is capped at 10000 but the cap is not
attained at slider position 100; there `sliderToCitations` evaluates to
1474, strictly below the cap. -/
theorem slider_hundred_value :
    sliderToCitations 100 = 1474 ∧ sliderToCitations 100 < 10000 := by
  refine ⟨sliderToCitations_at_100, ?_⟩
  rw [sliderToCitations_at_100]
  decide

/-- Claim C2: on slider positions in [0, 100] the slider-to-citation
transform is monotonically non-decreasing, and every output is at most the
saturation cap 10000. -/
theorem slider_monotone_and_capped :
    (∀ s1 s2 : ℤ, 0 ≤ s1 → s1 ≤ s2 → s2 ≤ 100 →
      sliderToCitations s1 ≤ sliderToCitations s2) ∧
    (∀ s : ℤ, 0 ≤ s → s ≤ 100 → sliderToCitations s ≤ 10000) := by
  constructor
  · intro s1 s2 _ h12 _
    unfold sliderToCitations
    refine min_le_min ?_ le_rfl
    rw [round_eq, round_eq]
    apply Int.floor_mono
    have hc : (s1 : ℝ) ≤ (s2 : ℝ) := by exact_mod_cast h12
    have hexp : Real.exp ((s1 : ℝ) / 20) ≤ Real.exp ((s2 : ℝ) / 20) :=
      Real.exp_le_exp.mpr (by linarith)
    linarith
  · intro s _ _
    exact min_le_right _ _

/-- Witness for claim C2 at the interval endpoints 0 and 100. -/
theorem slider_monotone_and_capped_witness :
    (0:ℤ) ≤ 0 ∧ (0:ℤ) ≤ 100 ∧ (100:ℤ) ≤ 100 ∧
    sliderToCitations 0 ≤ sliderToCitations 100 :=
  ⟨by decide, by decide, by decide,
    slider_monotone_and_capped.1 0 100 (by decide) (by decide) (by decide)⟩

/-- Two strings with different first characters are different. -/
lemma ne_of_head_char (m t : String) (c c2 : Char)
    (hm : m.data.get? 0 = some c) (ht : t.data.get? 0 = some c2)
    (hcc : c ≠ c2) : m ≠ t := by
  intro he
  rw [he] at hm
  rw [hm] at ht
  exact hcc (Option.some.inj ht)

/-- Classifier value on the 2-3 band, too-recent direction. -/
lemma classify_r23 (n : ℤ) (h1 : 2 ≤ n) (h2 : n ≤ 3) :
    yearBandOfMessage ("📅 " ++ toString n ++ " years too recent") = 2 := by
  interval_cases n <;> decide

/-- Classifier value on the 2-3 band, too-old direction. -/
lemma classify_o23 (n : ℤ) (h1 : 2 ≤ n) (h2 : n ≤ 3) :
    yearBandOfMessage ("📅 " ++ toString n ++ " years too old") = 2 := by
  interval_cases n <;> decide

/-- Classifier value on the 4-5 band, too-recent direction. -/
lemma classify_r45 (n : ℤ) (h1 : 4 ≤ n) (h2 : n ≤ 5) :
    yearBandOfMessage ("📅 " ++ toString n ++ " years too recent (getting warm)") = 3 := by
  interval_cases n <;> decide

/-- Classifier value on the 4-5 band, too-old direction. -/
lemma classify_o45 (n : ℤ) (h1 : 4 ≤ n) (h2 : n ≤ 5) :
    yearBandOfMessage ("📅 " ++ toString n ++ " years too old (close!)") = 3 := by
  interval_cases n <;> decide

/-- Classifier value on the 6-10 band, too-recent direction. -/
lemma classify_r610 (n : ℤ) (h1 : 6 ≤ n) (h2 : n ≤ 10) :
    yearBandOfMessage ("📅 " ++ toString n ++ " years too recent") = 4 := by
  interval_cases n <;> decide

/-- Classifier value on the 6-10 band, too-old direction. -/
lemma classify_o610 (n : ℤ) (h1 : 6 ≤ n) (h2 : n ≤ 10) :
    yearBandOfMessage ("📅 " ++ toString n ++ " years too old") = 4 := by
  interval_cases n <;> decide

/-- Classifier value on the above-10 band, too-recent direction. -/
lemma classify_wr (n : ℤ) :
    yearBandOfMessage ("📅 Way too recent (" ++ toString n ++ " years off)") = 5 := by
  have h0 : ("📅 Way too recent (" ++ toString n ++ " years off)").data.get? 0 = some '📅' := rfl
  have h2 : ("📅 Way too recent (" ++ toString n ++ " years off)").data.get? 2 = some 'W' := rfl
  unfold yearBandOfMessage
  rw [h0, h2]
  rw [if_neg (by decide : ¬((some '📅' : Option Char) = some '🎯'))]
  rw [if_pos (rfl : (some 'W' : Option Char) = some 'W')]

/-- Classifier value on the above-10 band, too-old direction. -/
lemma classify_wo (n : ℤ) :
    yearBandOfMessage ("📅 Way too old (" ++ toString n ++ " years off)") = 5 := by
  have h0 : ("📅 Way too old (" ++ toString n ++ " years off)").data.get? 0 = some '📅' := rfl
  have h2 : ("📅 Way too old (" ++ toString n ++ " years off)").data.get? 2 = some 'W' := rfl
  unfold yearBandOfMessage
  rw [h0, h2]
  rw [if_neg (by decide : ¬((some '📅' : Option Char) = some '🎯'))]
  rw [if_pos (rfl : (some 'W' : Option Char) = some 'W')]

/-- The year feedback equals its band-and-direction structured
presentation. -/
lemma year_spec_eq (g a : ℤ) : getYearFeedback g a = yearFeedbackSpec (g - a) := by
  unfold getYearFeedback yearFeedbackSpec yearRecentWording yearOldWording
  rcases abs_cases (g - a) with ⟨h1, h2⟩ | ⟨h1, h2⟩ <;> rw [h1] <;>
    split_ifs <;> first | omega | rfl

set_option maxHeartbeats 2000000 in
/-- The band of a year-feedback message, as recovered from the message text
alone, is the band of the signed year difference. -/
lemma year_band_correct (g a : ℤ) :
    yearBandOfMessage (getYearFeedback g a) = yearBand (g - a) := by
  unfold getYearFeedback yearBand
  rcases abs_cases (g - a) with ⟨h1, h2⟩ | ⟨h1, h2⟩ <;> rw [h1] <;> split_ifs <;>
    first
      | omega
      | decide
      | exact classify_r23 _ (by omega) (by omega)
      | exact classify_o23 _ (by omega) (by omega)
      | exact classify_r45 _ (by omega) (by omega)
      | exact classify_o45 _ (by omega) (by omega)
      | exact classify_r610 _ (by omega) (by omega)
      | exact classify_o610 _ (by omega) (by omega)
      | exact classify_wr _
      | exact classify_wo _

/-- The year feedback is the distinguished perfect message exactly on a
perfect guess. -/
lemma year_perfect_iff (g a : ℤ) :
    getYearFeedback g a = "🎯 Perfect! Spot on!" ↔ g = a := by
  constructor
  · intro h
    by_contra hne
    have hb := year_band_correct g a
    rw [h] at hb
    have h0 : yearBandOfMessage "🎯 Perfect! Spot on!" = 0 := by decide
    rw [h0] at hb
    unfold yearBand at hb
    rcases abs_cases (g - a) with ⟨h1, _⟩ | ⟨h1, _⟩ <;> rw [h1] at hb <;>
      split_ifs at hb <;> omega
  · intro h
    subst h
    unfold getYearFeedback
    simp

/-- Claim C4: the year feedback computes the signed difference
`d = guess - actual` and renders it by the band partition
{0, 1, 2-3, 4-5, 6-10, more than 10} with direction-aware wording
("too recent" exactly when `d > 0`, "too old" exactly when `d < 0`,
visible in the structure of `yearFeedbackSpec`); each band yields a
message distinct from every other band's (the band is recoverable from
the message text by `yearBandOfMessage`); and `d = 0` yields the
distinguished perfect message, which no other input produces. -/
theorem year_feedback_characterised :
    ∀ guess actual : ℤ,
      getYearFeedback guess actual = yearFeedbackSpec (guess - actual) ∧
      yearBandOfMessage (getYearFeedback guess actual) = yearBand (guess - actual) ∧
      (getYearFeedback guess actual = "🎯 Perfect! Spot on!" ↔ guess = actual) :=
  fun g a => ⟨year_spec_eq g a, year_band_correct g a, year_perfect_iff g a⟩

set_option maxHeartbeats 1000000 in
/-- The citation feedback equals its band-and-direction structured
presentation. -/
lemma cit_spec_eq (g a : ℤ) : getCitationFeedback g a = citationFeedbackSpec g a := by
  unfold getCitationFeedback citationFeedbackSpec citAbsoluteOverWording
    citAbsoluteUnderWording citPercentOverWording citPercentUnderWording
  split_ifs <;> first | omega | rfl

set_option maxHeartbeats 1000000 in
/-- The citation feedback is the distinguished exact-match message exactly
on a perfect guess. -/
lemma cit_exact_iff (g a : ℤ) :
    getCitationFeedback g a = "🎯 Exactly right!" ↔ g = a := by
  constructor
  · intro h
    by_contra hne
    have hd : ¬(g - a = 0) := by omega
    have hmsg : getCitationFeedback g a ≠ "🎯 Exactly right!" := by
      unfold getCitationFeedback
      split_ifs <;>
        first
          | exact absurd ‹g - a = 0› hd
          | exact ne_of_head_char _ _ '📚' '🎯' rfl rfl (by decide)
    exact absurd h hmsg
  · intro h
    subst h
    unfold getCitationFeedback
    simp

/-- Claim C3: the citation feedback computes `d = guess - actual` and the
percentage difference (100 when `actual = 0`); `d = 0` yields the
distinguished exact-match message, which no other input produces; below
`actual = 50` the message is chosen among the absolute bands at most 5,
at most 20, otherwise, and at or above 50 among the percentage bands at
most 10, 25, 50, otherwise, with the overestimate wording chosen exactly
when `d > 0` (visible in the structure of `citationFeedbackSpec`). -/
theorem citation_feedback_characterised :
    ∀ guess actual : ℤ,
      getCitationFeedback guess actual = citationFeedbackSpec guess actual ∧
      (getCitationFeedback guess actual = "🎯 Exactly right!" ↔ guess = actual) :=
  fun g a => ⟨cit_spec_eq g a, cit_exact_iff g a⟩

/-- Unfolding step of the loader loop on a failed attempt (transport error,
non-ok response, timeout abort or a `success: false` payload). -/
lemma fail_step (att : ℕ → FetchResult) (retry req : ℕ) (w : List ℕ) (fuel : ℕ)
    (h : (att retry).isSuccessPayload = false) :
    loadLoop att retry req w (fuel + 1) =
      if retry < maxRetries - 1 then
        loadLoop att (retry + 1) (req + 1) (w ++ [backoffMs]) fuel
      else ⟨none, req + 1, w, true⟩ := by
  cases ha : att retry
  case successPayload p =>
    rw [ha] at h
    simp [FetchResult.isSuccessPayload] at h
  all_goals simp only [loadLoop, ha]

/-- Unfolding step of the loader loop on a successful attempt. -/
lemma succ_step (att : ℕ → FetchResult) (retry req : ℕ) (w : List ℕ) (fuel : ℕ)
    (p : Paper) (h : att retry = .successPayload p) :
    loadLoop att retry req w (fuel + 1) = ⟨some p, req + 1, w, false⟩ := by
  simp only [loadLoop, h]

/-- The loader loop issues at most `fuel` further requests. -/
lemma loadLoop_requests_le (att : ℕ → FetchResult) :
    ∀ fuel retry req w, (loadLoop att retry req w fuel).requests ≤ req + fuel := by
  intro fuel
  induction fuel with
  | zero => intro retry req w; simp [loadLoop]
  | succ n ih =>
    intro retry req w
    cases ha : att retry
    case successPayload p =>
      rw [succ_step att retry req w n p ha]
      show req + 1 ≤ req + (n + 1)
      omega
    all_goals
      rw [fail_step att retry req w n (by simp [ha, FetchResult.isSuccessPayload])]
      split_ifs
      · exact le_trans (ih _ _ _) (by omega)
      · show req + 1 ≤ req + (n + 1)
        omega

/-- The loader loop never loses requests already issued. -/
lemma loadLoop_requests_ge (att : ℕ → FetchResult) :
    ∀ fuel retry req w, req ≤ (loadLoop att retry req w fuel).requests := by
  intro fuel
  induction fuel with
  | zero => intro retry req w; simp [loadLoop]
  | succ n ih =>
    intro retry req w
    cases ha : att retry
    case successPayload p =>
      rw [succ_step att retry req w n p ha]
      show req ≤ req + 1
      omega
    all_goals
      rw [fail_step att retry req w n (by simp [ha, FetchResult.isSuccessPayload])]
      split_ifs
      · exact le_trans (by omega) (ih _ _ _)
      · show req ≤ req + 1
        omega

/-- One run of the loader issues at least one request. -/
lemma loadNewPaperRun_one_le (att : ℕ → FetchResult) :
    1 ≤ (loadNewPaperRun att).requests := by
  show 1 ≤ (loadLoop att 0 0 [] (2 + 1)).requests
  cases ha : att 0
  case successPayload p =>
    rw [succ_step att 0 0 [] 2 p ha]
  all_goals
    rw [fail_step att 0 0 [] 2 (by simp [ha, FetchResult.isSuccessPayload])]
    norm_num [maxRetries]
    exact loadLoop_requests_ge att 2 1 1 _

/-- Claim C6: the loader's retry bound is exactly 3 attempts. Three
consecutive failures of any kind give the failed outcome with a
user-visible error, exactly 3 requests and a fixed 1000 ms backoff before
each of the two retries; a success on the second attempt gives the ready
outcome after exactly 2 requests and one backoff; a success on the first
attempt needs a single request; and no run ever issues more than 3
requests. -/
theorem loader_retry_bound : ∀ att : ℕ → FetchResult,
    ((∀ i, i < 3 → (att i).isSuccessPayload = false) →
      loadNewPaperRun att = ⟨none, 3, [backoffMs, backoffMs], true⟩) ∧
    (∀ p : Paper, (att 0).isSuccessPayload = false → att 1 = .successPayload p →
      loadNewPaperRun att = ⟨some p, 2, [backoffMs], false⟩) ∧
    (∀ p : Paper, att 0 = .successPayload p →
      loadNewPaperRun att = ⟨some p, 1, [], false⟩) ∧
    (loadNewPaperRun att).requests ≤ 3 := by
  intro att
  refine ⟨?_, ?_, ?_, ?_⟩
  · intro h
    have h0 := h 0 (by omega)
    have h1 := h 1 (by omega)
    have h2 := h 2 (by omega)
    show loadLoop att 0 0 [] (2 + 1) = _
    rw [fail_step att 0 0 [] 2 h0]
    norm_num [maxRetries]
    show loadLoop att 1 1 [backoffMs] (1 + 1) = _
    rw [fail_step att 1 1 [backoffMs] 1 h1]
    norm_num [maxRetries]
    show loadLoop att 2 2 [backoffMs, backoffMs] (0 + 1) = _
    rw [fail_step att 2 2 [backoffMs, backoffMs] 0 h2]
    norm_num [maxRetries]
  · intro p h0 h1
    show loadLoop att 0 0 [] (2 + 1) = _
    rw [fail_step att 0 0 [] 2 h0]
    norm_num [maxRetries]
    show loadLoop att 1 1 [backoffMs] (1 + 1) = _
    rw [succ_step att 1 1 [backoffMs] 1 p h1]
  · intro p h0
    show loadLoop att 0 0 [] (2 + 1) = _
    rw [succ_step att 0 0 [] 2 p h0]
  · have h := loadLoop_requests_le att 3 0 0 []
    simpa [loadNewPaperRun, maxRetries] using h

/-- Witness for claim C6 on a run whose attempts all return
`success: false` payloads. -/
theorem loader_retry_bound_witness :
    loadNewPaperRun (fun _ => FetchResult.failurePayload) =
      ⟨none, 3, [backoffMs, backoffMs], true⟩ :=
  (loader_retry_bound (fun _ => FetchResult.failurePayload)).1 (fun _ _ => rfl)

/-- Claim C7: a `loadNewPaper` call while a load is in flight is a no-op
issuing no request; the busy flag is raised on entry (`loadStartState`)
and is cleared on every exit path of a run that actually starts. -/
theorem loader_single_flight : ∀ (st : GameState) (att : ℕ → FetchResult),
    (st.isLoading = true → loadNewPaper st att = (st, ⟨none, 0, [], false⟩)) ∧
    (loadStartState st).isLoading = true ∧
    (st.isLoading = false → (loadNewPaper st att).1.isLoading = false) := by
  intro st att
  refine ⟨fun h => ?_, rfl, fun h => ?_⟩
  · simp [loadNewPaper, h]
  · simp [loadNewPaper, h]

/-- Witness for claim C7 on a busy state. -/
theorem loader_single_flight_witness :
    loadNewPaper ⟨none, 1, 0, 0, [], true⟩ (fun _ => FetchResult.failurePayload) =
      (⟨none, 1, 0, 0, [], true⟩, ⟨none, 0, [], false⟩) :=
  (loader_single_flight ⟨none, 1, 0, 0, [], true⟩ (fun _ => FetchResult.failurePayload)).1 rfl

/-- Claim C9: a confirmed reset sets the round counter to 1, zeroes
`roundsPlayed` and the cumulative score, clears the per-round score
history and immediately invokes the loader (issuing a request whenever no
load is already in flight); and no operation other than reset ever
decreases `roundsPlayed` or the cumulative score, given the documented
non-negative round totals. -/
theorem session_reset_and_monotone :
    (∀ (st : GameState) (att : ℕ → FetchResult),
      (resetGame st true att).1.roundNumber = 1 ∧
      (resetGame st true att).1.roundsPlayed = 0 ∧
      (resetGame st true att).1.totalScore = 0 ∧
      (resetGame st true att).1.roundScores = [] ∧
      (st.isLoading = false → 1 ≤ (resetGame st true att).2.requests)) ∧
    (∀ (st : GameState) (op : GameOp), op.isReset = false → opScoreNonneg op →
      st.roundsPlayed ≤ (applyOp st op).roundsPlayed ∧
      st.totalScore ≤ (applyOp st op).totalScore) := by
  constructor
  · intro st att
    refine ⟨?_, ?_, ?_, ?_, fun h => ?_⟩
    · by_cases h : st.isLoading <;> simp [resetGame, loadNewPaper, loadStartState, h]
    · by_cases h : st.isLoading <;> simp [resetGame, loadNewPaper, loadStartState, h]
    · by_cases h : st.isLoading <;> simp [resetGame, loadNewPaper, loadStartState, h]
    · by_cases h : st.isLoading <;> simp [resetGame, loadNewPaper, loadStartState, h]
    · simp [resetGame, loadNewPaper, loadStartState, h]
      exact loadNewPaperRun_one_le att
  · intro st op hop hnn
    cases op with
    | load att =>
      constructor <;> by_cases h : st.isLoading <;>
        simp [applyOp, loadNewPaper, loadStartState, h]
    | next att =>
      constructor <;> by_cases h : st.isLoading <;>
        simp [applyOp, nextRound, loadNewPaper, loadStartState, h]
    | submit server =>
      cases hc : st.currentPaper with
      | none => simp [applyOp, submitGuess, hc]
      | some p =>
        cases server with
        | ok ys cs ts =>
          have hts : (0 : ℤ) ≤ ts := hnn
          refine ⟨?_, ?_⟩
          · simp [applyOp, submitGuess, hc]
          · simp [applyOp, submitGuess, hc]
            omega
        | transportError => simp [applyOp, submitGuess, hc]
        | httpErrorStatus n => simp [applyOp, submitGuess, hc]
    | reset c att =>
      simp [GameOp.isReset] at hop

/-- Witness for claim C9: a concrete reset on an idle mid-session state,
and a concrete scoring submission that can only grow the tally. -/
theorem session_reset_and_monotone_witness :
    (resetGame ⟨none, 5, 4, 3000, [], false⟩ true (fun _ => FetchResult.failurePayload)).1.roundsPlayed = 0 ∧
    1 ≤ (resetGame ⟨none, 5, 4, 3000, [], false⟩ true (fun _ => FetchResult.failurePayload)).2.requests ∧
    (⟨some ⟨1, "t", 2015, 100, "i"⟩, 5, 4, 3000, [], false⟩ : GameState).totalScore ≤
      (applyOp ⟨some ⟨1, "t", 2015, 100, "i"⟩, 5, 4, 3000, [], false⟩
        (GameOp.submit (ServerResult.ok 1000 2000 3000))).totalScore :=
  ⟨(session_reset_and_monotone.1 ⟨none, 5, 4, 3000, [], false⟩ _).2.1,
   (session_reset_and_monotone.1 ⟨none, 5, 4, 3000, [], false⟩ _).2.2.2.2 rfl,
   (session_reset_and_monotone.2 ⟨some ⟨1, "t", 2015, 100, "i"⟩, 5, 4, 3000, [], false⟩
      (GameOp.submit (ServerResult.ok 1000 2000 3000)) rfl
      (show (0 : ℤ) ≤ 3000 by norm_num)).2⟩

/-- Claim C10: when the score POST fails (transport error or non-ok
response), the slider-variant `submitGuess` leaves the whole session state
exactly as it was, surfaces an error alert and re-enables the submit
control. -/
theorem submit_failure_atomic : ∀ (st : GameState) (server : ServerResult) (p : Paper),
    st.currentPaper = some p → server.isOk = false →
    submitGuess st server = (st, ⟨true, true, true⟩) := by
  intro st server p hp hs
  cases server with
  | ok ys cs ts => simp [ServerResult.isOk] at hs
  | transportError => simp [submitGuess, hp]
  | httpErrorStatus n => simp [submitGuess, hp]

/-- Witness for claim C10 on a concrete mid-session state and a transport
failure. -/
theorem submit_failure_atomic_witness :
    submitGuess ⟨some ⟨1, "t", 2015, 100, "i"⟩, 2, 1, 4500, [], false⟩
        ServerResult.transportError =
      (⟨some ⟨1, "t", 2015, 100, "i"⟩, 2, 1, 4500, [], false⟩, ⟨true, true, true⟩) :=
  submit_failure_atomic ⟨some ⟨1, "t", 2015, 100, "i"⟩, 2, 1, 4500, [], false⟩
    ServerResult.transportError ⟨1, "t", 2015, 100, "i"⟩ rfl rfl

/-- Claim C5, counterexample: the code rejects the year guess 2025 (its
accepted range is [2000, 2024], as its own alert text says), although 2025
lies inside the accepted range [2000, 2025] stated by the claim, so the
claim's description of the accepted range is false on the code. -/
theorem submit_validation_counterexample :
    (submitGuessV1 ⟨some ⟨1, "t", 2015, 100, "i"⟩, 1, 0, false⟩ (some 2025) (some 10)).2.1 =
      SubmitV1Outcome.invalidYearAlert ∧
    ¬((2025 : ℤ) < 2000 ∨ (2025 : ℤ) > 2025 ∨ (10 : ℤ) < 0) := by
  exact ⟨by decide, by decide⟩

/-- Claim C5, amended (accepted year range [2000, 2024]): any submission
whose year input is missing or outside [2000, 2024], or whose citation
input is missing or negative, is rejected synchronously: the session state
is unchanged (the round is not consumed), the results view is not shown,
and no network call is made. -/
theorem submit_validation_rejects :
    ∀ (st : GameStateV1) (y c : Option ℤ),
      validYearInputV1 y = false ∨ validCiteInputV1 c = false →
      (submitGuessV1 st y c).1 = st ∧
      (submitGuessV1 st y c).2.1 ≠ SubmitV1Outcome.resultsShown ∧
      (submitGuessV1 st y c).2.2 = false := by
  intro st y c h
  cases hc : st.currentPaper with
  | none => simp [submitGuessV1, hc]
  | some p =>
    cases y with
    | none => simp [submitGuessV1, hc]
    | some yv =>
      by_cases hy : yv < 2000 ∨ yv > 2024
      · simp [submitGuessV1, hc, hy]
      · have hyv : validYearInputV1 (some yv) = true := by
          simp [validYearInputV1]
          omega
        cases c with
        | none => simp [submitGuessV1, hc, hy]
        | some cv =>
          have hcv : cv < 0 := by
            rcases h with h | h
            · rw [hyv] at h
              exact absurd h (by simp)
            · simp [validCiteInputV1] at h
              omega
          simp [submitGuessV1, hc, hy, hcv]

/-- Witness for the amended claim C5: a year guess of 1999 against a loaded
round is rejected without consuming the round. -/
theorem submit_validation_rejects_witness :
    (validYearInputV1 (some 1999) = false ∨ validCiteInputV1 (some 10) = false) ∧
    (submitGuessV1 ⟨some ⟨1, "t", 2015, 100, "i"⟩, 1, 0, false⟩ (some 1999) (some 10)).1 =
      ⟨some ⟨1, "t", 2015, 100, "i"⟩, 1, 0, false⟩ ∧
    (submitGuessV1 ⟨some ⟨1, "t", 2015, 100, "i"⟩, 1, 0, false⟩ (some 1999) (some 10)).2.1 ≠
      SubmitV1Outcome.resultsShown ∧
    (submitGuessV1 ⟨some ⟨1, "t", 2015, 100, "i"⟩, 1, 0, false⟩ (some 1999) (some 10)).2.2 = false :=
  ⟨Or.inl (by decide),
   submit_validation_rejects ⟨some ⟨1, "t", 2015, 100, "i"⟩, 1, 0, false⟩
     (some 1999) (some 10) (Or.inl (by decide))⟩

/-- Claim C8: for every citation count up to the 10000 cap, running the
designed inverse and then the slider transform recovers the count up to
the tolerance induced by the two rounding steps: rounding the slider
position perturbs the count by at most the factor `e^(1/40)`, bounded here
by `(c + 10) / 39`, and the final rounding adds at most `1/2`. -/
theorem slider_roundtrip : ∀ c : ℕ, c ≤ 10000 →
    |((sliderToCitations (citationsToSlider (c : ℤ)) : ℤ) : ℝ) - (c : ℝ)| ≤
      ((c : ℝ) + 10) / 39 + 1 / 2 := by
  intro c hc
  have hx0 : (0 : ℝ) ≤ (c : ℝ) := Nat.cast_nonneg c
  have hpos : (0 : ℝ) < (c : ℝ) / 10 + 1 := by positivity
  set y : ℝ := 20 * Real.log ((c : ℝ) / 10 + 1) with hydef
  have hslider : citationsToSlider (c : ℤ) = round y := by
    unfold citationsToSlider
    rw [hydef]
    norm_num
  set s : ℤ := citationsToSlider (c : ℤ) with hsdef
  have hs : s = round y := hslider
  have hδ : |(s : ℝ) - y| ≤ 1 / 2 := by
    rw [hs]
    simpa [abs_sub_comm] using abs_sub_round y
  have hexp : Real.exp ((s : ℝ) / 20) =
      ((c : ℝ) / 10 + 1) * Real.exp (((s : ℝ) - y) / 20) := by
    have h1 : (s : ℝ) / 20 = Real.log ((c : ℝ) / 10 + 1) + ((s : ℝ) - y) / 20 := by
      rw [hydef]
      ring
    rw [h1, Real.exp_add, Real.exp_log hpos]
  set E : ℝ := Real.exp (((s : ℝ) - y) / 20) with hEdef
  have hE_ub : E ≤ 40 / 39 := by
    have h1 : ((s : ℝ) - y) / 20 ≤ 1 / 40 := by
      have h := abs_le.mp hδ
      linarith [h.2]
    have h2 : E ≤ Real.exp (1 / 40) := Real.exp_le_exp.mpr h1
    have h3 : Real.exp (1 / 40 : ℝ) ≤ 40 / 39 := by
      have h4 := Real.add_one_le_exp (-(1 / 40 : ℝ))
      have h5 : Real.exp (1 / 40 : ℝ) * Real.exp (-(1 / 40 : ℝ)) = 1 := by
        rw [← Real.exp_add]
        norm_num
      nlinarith [Real.exp_pos (1 / 40 : ℝ), Real.exp_pos (-(1 / 40 : ℝ))]
    linarith
  have hE_lb : 39 / 40 ≤ E := by
    have h1 : (-(1 / 40) : ℝ) ≤ ((s : ℝ) - y) / 20 := by
      have h := abs_le.mp hδ
      linarith [h.1]
    have h2 : Real.exp (-(1 / 40 : ℝ)) ≤ E := Real.exp_le_exp.mpr h1
    have h3 := Real.add_one_le_exp (-(1 / 40 : ℝ))
    linarith
  set raw : ℝ := (Real.exp ((s : ℝ) / 20) - 1) * 10 with hrawdef
  have hraw_eq : raw - (c : ℝ) = ((c : ℝ) + 10) * (E - 1) := by
    rw [hrawdef, hexp, hEdef]
    ring
  have hEabs : |E - 1| ≤ 1 / 39 := by
    rw [abs_le]
    constructor <;> linarith
  have hraw_close : |raw - (c : ℝ)| ≤ ((c : ℝ) + 10) / 39 := by
    rw [hraw_eq, abs_mul, abs_of_nonneg (by linarith : (0 : ℝ) ≤ (c : ℝ) + 10)]
    have h := mul_le_mul_of_nonneg_left hEabs (by linarith : (0 : ℝ) ≤ (c : ℝ) + 10)
    linarith
  have hfinal : sliderToCitations s = min (round raw) 10000 := by
    unfold sliderToCitations
    rw [hrawdef]
  have hround : |((round raw : ℤ) : ℝ) - raw| ≤ 1 / 2 := by
    simpa [abs_sub_comm] using abs_sub_round raw
  have hrc : |((round raw : ℤ) : ℝ) - (c : ℝ)| ≤ ((c : ℝ) + 10) / 39 + 1 / 2 := by
    have h := abs_sub_le ((round raw : ℤ) : ℝ) raw ((c : ℝ))
    linarith
  rw [hfinal]
  rcases le_or_lt (round raw) 10000 with h | h
  · rw [min_eq_left h]
    exact hrc
  · rw [min_eq_right h.le]
    have h1 : (10000 : ℝ) < ((round raw : ℤ) : ℝ) := by exact_mod_cast h
    have h2 : (c : ℝ) ≤ 10000 := by exact_mod_cast hc
    have h3 := (abs_le.mp hrc).2
    push_cast
    rw [abs_of_nonneg (by linarith)]
    linarith

/-- Witness for claim C8 at the citation count 100. -/
theorem slider_roundtrip_witness :
    (100 : ℕ) ≤ 10000 ∧
    |((sliderToCitations (citationsToSlider ((100 : ℕ) : ℤ)) : ℤ) : ℝ) - ((100 : ℕ) : ℝ)| ≤
      (((100 : ℕ) : ℝ) + 10) / 39 + 1 / 2 :=
  ⟨by decide, slider_roundtrip 100 (by decide)⟩
